import Mathlib

/-!
Verification of the `paw` single-session CLI agent (src/paw.py).

The Python source is shallowly embedded: Python `str` values become
`List Char` (for functions we reason about structurally) or `String`
(for functions only evaluated and concatenated), the filesystem becomes
an association list from path to text, raised exceptions become
`Except`/`Option` error values, and the agent loop's mutable state is
passed explicitly.  Each section names the source lines it embeds.
-/

/-! ### Python string primitives (modelled over `List Char`) -/

/-- Python whitespace recognized by `str.strip()` (ASCII subset). -/
def isPySpace (c : Char) : Bool :=
  c == ' ' || c == '\t' || c == '\n' || c == '\r' || c == '\x0b' || c == '\x0c'

/-- Python `s.strip()`: drop whitespace from both ends. -/
def pyStrip (s : List Char) : List Char :=
  ((s.dropWhile isPySpace).reverse.dropWhile isPySpace).reverse

/-- Boolean "is a prefix of" on character lists. -/
def isPref : List Char → List Char → Bool
  | [], _ => true
  | _ :: _, [] => false
  | a :: as, b :: bs => a == b && isPref as bs

/-- Python `old in s` substring test (left-to-right scan). -/
def occursIn : List Char → List Char → Bool
  | o, [] => isPref o []
  | o, c :: rest => isPref o (c :: rest) || occursIn o rest

/-- Python `s.replace(old, new, 1)`: replace the leftmost occurrence of
`old` (it inserts `new` at position 0 when `old` is empty, as CPython does);
returns `s` unchanged when `old` does not occur. -/
def replaceFirst : List Char → List Char → List Char → List Char
  | [], o, n => if isPref o [] then n ++ List.drop o.length [] else []
  | c :: rest, o, n =>
    if isPref o (c :: rest) then n ++ (c :: rest).drop o.length
    else c :: replaceFirst rest o n

/-- Python `s.count(old)`: number of non-overlapping occurrences scanned
left to right (`s.count("") = s.length + 1`, as in CPython). -/
def pyCount : List Char → List Char → Nat
  | [], s => s.length + 1
  | _ :: _, [] => 0
  | a :: as, c :: rest =>
    if isPref (a :: as) (c :: rest) then 1 + pyCount (a :: as) (rest.drop as.length)
    else pyCount (a :: as) rest
termination_by _ s => s.length
decreasing_by
  · simp only [List.length_drop, List.length_cons]; omega
  · simp only [List.length_cons]; omega

/-- Python `xs[-n:]` for `n ≥ 1`: the trailing `n` elements. -/
def lastN (n : Nat) (xs : List α) : List α :=
  xs.drop (xs.length - n)

/-! ### Filesystem model

Files are an association list from path to text (a `List Char`); a
missing path models a file that does not exist on disk. -/

/-- The filesystem: path ↦ current text. -/
def Fs : Type := List (String × List Char)

/-- Python `Path(path).read_text()` (`none` models `FileNotFoundError`). -/
def readFs : Fs → String → Option (List Char)
  | [], _ => none
  | (p, t) :: rest, path => if p == path then some t else readFs rest path

/-- Python `Path(path).write_text(text)`: overwrite, or create if absent. -/
def writeFs : Fs → String → List Char → Fs
  | [], path, text => [(path, text)]
  | (p, t) :: rest, path, text =>
    if p == path then (p, text) :: rest else (p, t) :: writeFs rest path text

/-! ### Tools: `update_file`, `write_file`, `bash` (src/paw.py lines 58-98) -/

/-- src/paw.py lines 69-81.  `raise ToolError(...)` becomes the
`Except.error` outcome (the toolkit turns it into a `ToolCallResult`
error); a missing file becomes a `FileNotFound` error value.  The
returned filesystem is the disk state after the call. -/
def update_file (fs : Fs) (path : String) (old new : List Char) :
    Fs × Except String String :=
  match readFs fs path with
  | none => (fs, Except.error ("FileNotFound: " ++ path))
  | some text =>
    if occursIn old text then
      (writeFs fs path (replaceFirst text old new), Except.ok ("Updated " ++ path))
    else
      (fs, Except.error ("String not found in " ++ path))

/-- src/paw.py lines 58-66: overwrite the file, report a byte count. -/
def write_file (fs : Fs) (path : String) (content : List Char) : Fs × String :=
  (writeFs fs path content, "Written " ++ toString content.length ++ " bytes to " ++ path)

/-- src/paw.py lines 84-98: `bash` output assembly from the completed
subprocess's stdout, stderr and exit status (`output += stderr` is guarded
by stderr's truthiness, the exit-code marker by a nonzero status, and
`output or "(no output)"` replaces an empty result). -/
def bash_output (stdout stderr : String) (returncode : Int) : String :=
  let o1 := if stderr ≠ "" then stdout ++ stderr else stdout
  let o2 := if returncode ≠ 0 then o1 ++ "\n(exit code: " ++ toString returncode ++ ")" else o1
  if o2 = "" then "(no output)" else o2

/-! ### Lemmas about the string primitives -/

theorem isPref_nil_iff (o : List Char) : isPref o [] = true ↔ o = [] := by
  cases o <;> simp [isPref]

theorem isPref_eq_append (o : List Char) :
    ∀ s : List Char, isPref o s = true → s = o ++ s.drop o.length := by
  induction o with
  | nil => intro s _; simp
  | cons a as ih =>
    intro s h
    cases s with
    | nil => simp [isPref] at h
    | cons b bs =>
      simp only [isPref, Bool.and_eq_true, beq_iff_eq] at h
      obtain ⟨rfl, h2⟩ := h
      simpa [List.length_cons, List.drop_succ_cons] using congrArg (a :: ·) (ih bs h2)

theorem isPref_append_self (o t : List Char) : isPref o (o ++ t) = true := by
  induction o with
  | nil => simp [isPref]
  | cons a as ih => simp [isPref, ih]

/-- The heart of claim C2: `replaceFirst` rewrites exactly the leftmost
occurrence of `o`, keeps the prefix before it and the suffix after it
byte-for-byte, and (for nonempty `o`) the suffix carries exactly the
remaining non-overlapping occurrences. -/
theorem replaceFirst_spec (o n : List Char) :
    ∀ s : List Char, occursIn o s = true →
      ∃ pre suf, s = pre ++ o ++ suf ∧
        (∀ p q, s = p ++ o ++ q → pre.length ≤ p.length) ∧
        replaceFirst s o n = pre ++ n ++ suf ∧
        (o ≠ [] → pyCount o s = pyCount o suf + 1) := by
  intro s
  induction s with
  | nil =>
    intro h
    have ho : o = [] := by simpa [occursIn, isPref_nil_iff] using h
    subst ho
    refine ⟨[], [], by simp, fun p q _ => Nat.zero_le _, by simp [replaceFirst, isPref], ?_⟩
    intro h0; exact absurd rfl h0
  | cons c rest ih =>
    intro h
    by_cases hp : isPref o (c :: rest) = true
    · refine ⟨[], (c :: rest).drop o.length, ?_, fun p q _ => Nat.zero_le _, ?_, ?_⟩
      · simpa using isPref_eq_append o (c :: rest) hp
      · simp [replaceFirst, hp]
      · intro ho
        cases o with
        | nil => exact absurd rfl ho
        | cons a as =>
          simp [pyCount, hp, List.length_cons, List.drop_succ_cons, Nat.add_comm]
    · have hrest : occursIn o rest = true := by
        simpa [occursIn, hp] using h
      obtain ⟨pre, suf, hsplit, hmin, hrep, hcount⟩ := ih hrest
      refine ⟨c :: pre, suf, ?_, ?_, ?_, ?_⟩
      · simp [hsplit]
      · intro p q hpq
        cases p with
        | nil =>
          exfalso
          simp only [List.nil_append] at hpq
          rw [hpq] at hp
          exact hp (isPref_append_self o q)
        | cons d p' =>
          simp only [List.cons_append, List.cons.injEq] at hpq
          have := hmin p' q hpq.2
          simp only [List.length_cons]
          omega
      · simp [replaceFirst, hp, hrep]
      · intro ho
        cases o with
        | nil => exact absurd rfl ho
        | cons a as =>
          simpa [pyCount, hp] using hcount ho

theorem readFs_writeFs (fs : Fs) (path : String) (text : List Char) :
    readFs (writeFs fs path text) path = some text := by
  induction fs with
  | nil => simp [writeFs, readFs]
  | cons pt rest ih =>
    obtain ⟨p, t⟩ := pt
    by_cases hp : (p == path) = true
    · simp [writeFs, readFs, hp]
    · simp only [writeFs, readFs, hp, Bool.false_eq_true, if_false, if_neg]
      exact ih

/-! ### Claims C1 and C2: `update_file` -/

/-- C1: when `old` does not occur in the file's current text,
`update_file` yields the reported `StringNotFound` tool error (an error
value, not a crash) and the filesystem — in particular the file itself —
is byte-for-byte unchanged. -/
theorem update_file_absent_error (fs : Fs) (path : String) (old new text : List Char)
    (hread : readFs fs path = some text) (habs : occursIn old text = false) :
    update_file fs path old new = (fs, Except.error ("String not found in " ++ path)) ∧
    readFs (update_file fs path old new).1 path = some text := by
  refine ⟨by simp [update_file, hread, habs], ?_⟩
  simp [update_file, hread, habs]

/-- Witness for `update_file_absent_error` at a concrete file. -/
theorem update_file_absent_error_witness :
    update_file [("f.txt", "abab".toList)] "f.txt" "zz".toList "Y".toList =
      ([("f.txt", "abab".toList)], Except.error ("String not found in " ++ "f.txt")) ∧
    readFs (update_file [("f.txt", "abab".toList)] "f.txt" "zz".toList "Y".toList).1 "f.txt" =
      some "abab".toList :=
  update_file_absent_error [("f.txt", "abab".toList)] "f.txt" "zz".toList "Y".toList
    "abab".toList (by decide) (by decide)

/-- C2: when `old` occurs in the file's text, `update_file` writes back
the text with exactly the leftmost occurrence of `old` replaced by `new`:
the prefix before it and the suffix after it (which carries the remaining
k−1 non-overlapping occurrences) are unchanged. -/
theorem update_file_replaces_leftmost (fs : Fs) (path : String) (old new text : List Char)
    (hread : readFs fs path = some text) (hocc : occursIn old text = true) :
    ∃ pre suf,
      text = pre ++ old ++ suf ∧
      (∀ p q, text = p ++ old ++ q → pre.length ≤ p.length) ∧
      update_file fs path old new =
        (writeFs fs path (pre ++ new ++ suf), Except.ok ("Updated " ++ path)) ∧
      readFs (update_file fs path old new).1 path = some (pre ++ new ++ suf) ∧
      (old ≠ [] → pyCount old text = pyCount old suf + 1) := by
  obtain ⟨pre, suf, h1, h2, h3, h4⟩ := replaceFirst_spec old new text hocc
  refine ⟨pre, suf, h1, h2, ?_, ?_, h4⟩
  · simp [update_file, hread, hocc, h3]
  · simp only [update_file, hread, hocc, if_true, h3]
    exact readFs_writeFs fs path (pre ++ new ++ suf)

/-- Witness for `update_file_replaces_leftmost`: "abab" with old "ab",
new "X" (two occurrences; only the first is replaced). -/
theorem update_file_replaces_leftmost_witness :
    ∃ pre suf,
      "abab".toList = pre ++ "ab".toList ++ suf ∧
      (∀ p q, "abab".toList = p ++ "ab".toList ++ q → pre.length ≤ p.length) ∧
      update_file [("f.txt", "abab".toList)] "f.txt" "ab".toList "X".toList =
        (writeFs [("f.txt", "abab".toList)] "f.txt" (pre ++ "X".toList ++ suf),
         Except.ok ("Updated " ++ "f.txt")) ∧
      readFs (update_file [("f.txt", "abab".toList)] "f.txt" "ab".toList "X".toList).1 "f.txt" =
        some (pre ++ "X".toList ++ suf) ∧
      ("ab".toList ≠ [] → pyCount "ab".toList "abab".toList = pyCount "ab".toList suf + 1) :=
  update_file_replaces_leftmost [("f.txt", "abab".toList)] "f.txt" "ab".toList "X".toList
    "abab".toList (by decide) (by decide)

/-! ### Claim C3: `bash` output assembly -/

theorem append_ne_empty_of_right (a b : String) (h : b.data ≠ []) : a ++ b ≠ "" := by
  intro he
  apply h
  have hd := congrArg String.data he
  simp only [String.data_append] at hd
  exact (List.append_eq_nil.mp hd).2

/-- C3: a zero exit status with empty stdout and stderr yields exactly
the literal "(no output)"; a nonzero exit status `n` yields the combined
captured output (stdout then stderr) followed by a newline and the
literal "(exit code: n)" marker. -/
theorem bash_output_reports (out err : String) (n : Int) :
    bash_output "" "" 0 = "(no output)" ∧
    (n ≠ 0 → bash_output out err n = out ++ err ++ "\n(exit code: " ++ toString n ++ ")") := by
  refine ⟨rfl, ?_⟩
  intro hn
  have h1 : (if err ≠ "" then out ++ err else out) = out ++ err := by
    by_cases he : err = "" <;> simp [he]
  simp only [bash_output, h1, if_pos hn]
  rw [if_neg (append_ne_empty_of_right _ ")" (by decide))]

/-- Witness for `bash_output_reports` at exit status 3. -/
theorem bash_output_reports_witness :
    bash_output "" "" 0 = "(no output)" ∧
    bash_output "hi" "oops" 3 = "hi" ++ "oops" ++ "\n(exit code: " ++ toString (3 : Int) ++ ")" :=
  ⟨(bash_output_reports "hi" "oops" 3).1, (bash_output_reports "hi" "oops" 3).2 (by decide)⟩

/-! ### Confirmation gate (src/paw.py lines 101-125) -/

/-- src/paw.py line 103: the confirm-required tool names. -/
def CONFIRM_TOOLS : List String := ["write_file", "update_file", "bash"]

/-- Python `answer.strip().lower()` as applied on src/paw.py line 124. -/
def normalizeAnswer (answer : String) : List Char :=
  (pyStrip answer.toList).map Char.toLower

/-- src/paw.py lines 124-125: `answer in ("", "y", "yes")` after
strip+lower. -/
def answer_allows (answer : String) : Bool :=
  let a := normalizeAnswer answer
  a == [] || a == "y".toList || a == "yes".toList

/-- src/paw.py lines 120-125: `confirm_tool`, with the interactive
`input(...)` reply passed in as `answer`.  Tools outside `CONFIRM_TOOLS`
are allowed without consulting the answer. -/
def confirm_tool (name : String) (answer : String) : Bool :=
  if !(CONFIRM_TOOLS.contains name) then true
  else answer_allows answer

/-- Modelled from the spec: "only an explicit negative answer denies",
against the `[Y/n]` prompt — an explicit negative is a reply whose
stripped, lowercased form is "n" or "no".  Used only to compare the
spec's wording with `confirm_tool`. -/
def specExplicitNegative (answer : String) : Bool :=
  let a := normalizeAnswer answer
  a == "n".toList || a == "no".toList

/-! ### Claim C4 (corrected) -/

/-- Counterexample to C4 as stated: "maybe" is not an explicit negative
answer, yet `confirm_tool` denies it for the confirm-required tool
`bash`. -/
theorem confirm_tool_denies_non_negative :
    CONFIRM_TOOLS.contains "bash" = true ∧
    specExplicitNegative "maybe" = false ∧
    confirm_tool "bash" "maybe" = false := by
  decide

/-- C4 amended: for every confirm-required tool an empty answer yields
consent, and an answer yields consent exactly when its stripped,
lowercased form is "", "y" or "yes"; every other answer — explicit
negative or not — denies. -/
theorem confirm_tool_amended (name answer : String)
    (h : CONFIRM_TOOLS.contains name = true) :
    confirm_tool name "" = true ∧
    (confirm_tool name answer = true ↔
      (normalizeAnswer answer = [] ∨ normalizeAnswer answer = "y".toList ∨
       normalizeAnswer answer = "yes".toList)) := by
  constructor
  · simp [confirm_tool, h, answer_allows, normalizeAnswer, pyStrip]
  · have hm : name ∈ CONFIRM_TOOLS := by simpa using h
    simp [confirm_tool, h, answer_allows, hm, or_assoc]

/-- Witness for `confirm_tool_amended` at the tool "bash" and answer
" YES ". -/
theorem confirm_tool_amended_witness :
    confirm_tool "bash" "" = true ∧
    (confirm_tool "bash" " YES " = true ↔
      (normalizeAnswer " YES " = [] ∨ normalizeAnswer " YES " = "y".toList ∨
       normalizeAnswer " YES " = "yes".toList)) :=
  confirm_tool_amended "bash" " YES " (by decide)

/-! ### Multimodal attachment staging (src/paw.py lines 14-55, 185-194) -/

/-- src/paw.py line 16 (extensions kept as character lists). -/
def IMAGE_EXTENSIONS : List (List Char) :=
  [".png".toList, ".jpg".toList, ".jpeg".toList, ".gif".toList, ".webp".toList]

/-- src/paw.py line 17. -/
def DOCUMENT_EXTENSIONS : List (List Char) := [".pdf".toList]

/-- src/paw.py lines 19-26. -/
def MIME_TYPES : List (List Char × String) :=
  [(".png".toList, "image/png"), (".jpg".toList, "image/jpeg"),
   (".jpeg".toList, "image/jpeg"), (".gif".toList, "image/gif"),
   (".webp".toList, "image/webp"), (".pdf".toList, "application/pdf")]

/-- Lookup in `MIME_TYPES` (`none` models a `KeyError`). -/
def mimeOf : List (List Char × String) → List Char → Option String
  | [], _ => none
  | (e, m) :: rest, ext => if e == ext then some m else mimeOf rest ext

/-- The globals `_pending_images` / `_pending_documents`
(src/paw.py lines 28-29), made explicit state. -/
structure PendingState where
  images : List String
  documents : List String
deriving Repr, DecidableEq

/-- The final path component, as `pathlib` computes `Path(path).name`. -/
def lastComponent (cs : List Char) : List Char :=
  cs.foldl (fun acc c => if c == '/' then [] else acc ++ [c]) []

/-- Index of the last '.' in a name, if any. -/
def lastDotIdx (cs : List Char) : Option Nat :=
  (List.range cs.length).foldl
    (fun acc i => if cs.getD i ' ' == '.' then some i else acc) none

/-- Python `Path(path).suffix`: the extension of the final component,
including the dot; empty when the only dot is leading (".bashrc") or
trailing ("a."). -/
def pathSuffix (path : String) : List Char :=
  let name := lastComponent path.toList
  match lastDotIdx name with
  | some i => if 0 < i ∧ i < name.length - 1 then name.drop i else []
  | none => []

/-- The base64 alphabet. -/
def b64Table : List Char :=
  "ABCDEFGHIJKLMNOPQRSTUVWXYZabcdefghijklmnopqrstuvwxyz0123456789+/".toList

/-- One base64 digit. -/
def b64Char (n : Nat) : Char := b64Table.getD n '?'

/-- Standard base64 of a byte list, with '=' padding (Python
`base64.b64encode`). -/
def b64encode : List Nat → List Char
  | [] => []
  | [a] => [b64Char (a / 4), b64Char (a % 4 * 16), '=', '=']
  | [a, b] => [b64Char (a / 4), b64Char (a % 4 * 16 + b / 16), b64Char (b % 16 * 4), '=']
  | a :: b :: c :: rest =>
    [b64Char (a / 4), b64Char (a % 4 * 16 + b / 16), b64Char (b % 16 * 4 + c / 64),
     b64Char (c % 64)] ++ b64encode rest

/-- UTF-8 encoding of one character's scalar value. -/
def utf8EncodeCharN (c : Char) : List Nat :=
  let v := c.toNat
  if v < 0x80 then [v]
  else if v < 0x800 then [0xC0 ||| (v >>> 6), 0x80 ||| (v &&& 0x3F)]
  else if v < 0x10000 then
    [0xE0 ||| (v >>> 12), 0x80 ||| ((v >>> 6) &&& 0x3F), 0x80 ||| (v &&& 0x3F)]
  else
    [0xF0 ||| (v >>> 18), 0x80 ||| ((v >>> 12) &&& 0x3F), 0x80 ||| ((v >>> 6) &&& 0x3F),
     0x80 ||| (v &&& 0x3F)]

/-- The UTF-8 bytes of a file's text (`Path.read_bytes` on a text file). -/
def utf8Bytes (cs : List Char) : List Nat :=
  cs.flatMap utf8EncodeCharN

/-- src/paw.py lines 32-35: `_to_data_url` (`none` models the raised
`FileNotFoundError`/`KeyError`). -/
def to_data_url (fs : Fs) (path : String) : Option String :=
  match readFs fs path with
  | none => none
  | some content =>
    match mimeOf MIME_TYPES ((pathSuffix path).map Char.toLower) with
    | none => none
    | some mime =>
      some ("data:" ++ mime ++ ";base64," ++ String.mk (b64encode (utf8Bytes content)))

/-- src/paw.py lines 41-55: `read_file`.  Image and document paths stage
a data URL on the matching pending queue and return a short confirmation;
other paths return the file's text. -/
def read_file (fs : Fs) (pending : PendingState) (path : String) :
    Except String (String × PendingState) :=
  let ext := (pathSuffix path).map Char.toLower
  if IMAGE_EXTENSIONS.contains ext then
    match to_data_url fs path with
    | none => Except.error ("FileNotFound: " ++ path)
    | some url =>
      Except.ok ("Image loaded: " ++ path, { pending with images := pending.images ++ [url] })
  else if DOCUMENT_EXTENSIONS.contains ext then
    match to_data_url fs path with
    | none => Except.error ("FileNotFound: " ++ path)
    | some url =>
      Except.ok ("Document loaded: " ++ path,
                 { pending with documents := pending.documents ++ [url] })
  else
    match readFs fs path with
    | none => Except.error ("FileNotFound: " ++ path)
    | some text => Except.ok (String.mk text, pending)

/-- src/paw.py lines 185-194, the queue part: read both pending queues
and clear them (the drained contents go into the flushed user message). -/
def drainPending (pending : PendingState) : (List String × List String) × PendingState :=
  ((pending.images, pending.documents), ⟨[], []⟩)

/-! ### Claim C8: staging order and queue draining -/

/-- Concrete media files for the staging scenario. -/
def demoMediaFs : Fs := [("a.png", ['A']), ("b.png", ['B']), ("c.pdf", ['C'])]

/-- C8: from an empty queue, staging two images then one document via
`read_file` and then draining yields exactly those three payloads in
staging order; an immediately following second drain yields empty
collections; and draining always leaves both queues empty. -/
theorem attachments_stage_drain_order :
    (∀ pending : PendingState, (drainPending pending).2 = ⟨[], []⟩) ∧
    ∃ s1 s2 s3 : PendingState,
      read_file demoMediaFs ⟨[], []⟩ "a.png" = Except.ok ("Image loaded: a.png", s1) ∧
      read_file demoMediaFs s1 "b.png" = Except.ok ("Image loaded: b.png", s2) ∧
      read_file demoMediaFs s2 "c.pdf" = Except.ok ("Document loaded: c.pdf", s3) ∧
      drainPending s3 =
        ((["data:image/png;base64,QQ==", "data:image/png;base64,Qg=="],
          ["data:application/pdf;base64,Qw=="]), ⟨[], []⟩) ∧
      drainPending (drainPending s3).2 = (([], []), ⟨[], []⟩) := by
  refine ⟨fun pending => rfl,
    ⟨⟨["data:image/png;base64,QQ=="], []⟩,
     ⟨["data:image/png;base64,QQ==", "data:image/png;base64,Qg=="], []⟩,
     ⟨["data:image/png;base64,QQ==", "data:image/png;base64,Qg=="],
      ["data:application/pdf;base64,Qw=="]⟩,
     ?_, ?_, ?_, rfl, rfl⟩⟩
  · rfl
  · rfl
  · rfl

/-! ### Agent loop (src/paw.py lines 128-196)

The external model transport, the interactive confirmation answer and
the toolkit dispatch are the loop's collaborators; they enter as
parameters (`model`, `confirm`, `exec`).  The loop's own mutable state —
the conversation, the pending-attachment queues and whatever world the
tools touch — is threaded explicitly. -/

/-- A tool-call request as emitted by the model. -/
structure ToolCall where
  name : String
  arguments : List (String × String)
deriving Repr, DecidableEq

/-- think.llm's ToolResponse: the call plus one of response/error. -/
structure ToolResponse where
  call : ToolCall
  response : Option String
  error : Option String
deriving Repr, DecidableEq

/-- A content part of a message. -/
inductive PartM where
  | text (s : String)
  | toolCall (tc : ToolCall)
  | toolResponse (tr : ToolResponse)
  | image (url : String)
  | document (url : String)
deriving Repr, DecidableEq

/-- Message roles. -/
inductive RoleM where
  | system
  | user
  | assistant
  | tool
deriving Repr, DecidableEq

/-- A chat message. -/
structure MessageM where
  role : RoleM
  content : List PartM
deriving Repr, DecidableEq

/-- src/paw.py lines 145-147: the turn's nonempty text parts, in order. -/
def textsOf (m : MessageM) : List String :=
  m.content.filterMap fun p =>
    match p with
    | PartM.text s => if s = "" then none else some s
    | _ => none

/-- src/paw.py lines 148-149: the turn's tool-call parts, in order. -/
def toolCallsOf (m : MessageM) : List ToolCall :=
  m.content.filterMap fun p =>
    match p with
    | PartM.toolCall tc => some tc
    | _ => none

/-- The loop's collaborators: one model turn from the conversation so
far, the interactive confirmation decision for a pending call, and the
toolkit executing a confirmed call against the world `W` (which includes
the pending-attachment queues, since `read_file` stages into them). -/
structure LoopEnv (W : Type) where
  model : List MessageM → MessageM
  confirm : ToolCall → Bool
  exec : ToolCall → PendingState × W → ToolResponse × (PendingState × W)

/-- src/paw.py lines 164-168: response preview, truncated past 500. -/
def previewOf (r : String) : String :=
  if r.length ≤ 500 then r else r.take 500 ++ "…"

/-- src/paw.py lines 161-169: the line printed for an executed call. -/
def respLine (tr : ToolResponse) : String :=
  match tr.error with
  | some e => "  ERROR: " ++ e
  | none => "  -> " ++ previewOf (tr.response.getD "")

/-- src/paw.py lines 157-173: resolve the turn's tool calls in emitted
order.  A denied call contributes the synthetic denial result and leaves
the state untouched; a confirmed call runs `exec`.  Returns the
responses (1:1 and in order with the calls), the printed lines, and the
final state. -/
def resolveCalls (env : LoopEnv W) :
    List ToolCall → PendingState × W →
      List ToolResponse × List String × (PendingState × W)
  | [], s => ([], [], s)
  | tc :: rest, s =>
    if env.confirm tc then
      let es := env.exec tc s
      let r := resolveCalls env rest es.2
      (es.1 :: r.1, respLine es.1 :: r.2.1, r.2.2)
    else
      let r := resolveCalls env rest s
      (⟨tc, none, some "User denied this action."⟩ :: r.1,
       "  DENIED" :: r.2.1, r.2.2)

/-- src/paw.py lines 175-183: the tool-role message carrying the
responses. -/
def toolMessage (trs : List ToolResponse) : MessageM :=
  ⟨RoleM.tool, trs.map fun tr => PartM.toolResponse tr⟩

/-- src/paw.py lines 185-194: `Message.user("Here are the requested
files:", images=..., documents=...)`. -/
def attachmentMessage (imgs docs : List String) : MessageM :=
  ⟨RoleM.user,
   PartM.text "Here are the requested files:" ::
     (imgs.map PartM.image ++ docs.map PartM.document)⟩

/-- src/paw.py lines 185-194: when any attachments are pending, drain
the queues into a new user message appended to the conversation. -/
def flushAttachments (msgs : List MessageM) (s : PendingState × W) :
    List MessageM × (PendingState × W) :=
  if s.1.images.isEmpty && s.1.documents.isEmpty then (msgs, s)
  else
    let d := drainPending s.1
    (msgs ++ [attachmentMessage d.1.1 d.1.2], (d.2, s.2))

/-- src/paw.py line 130. -/
def MAX_STEPS : Nat := 20

/-- How the loop ended: a turn without tool calls (`break`), or fuel
exhaustion (the `for`'s `else`). -/
inductive RunOutcome where
  | natural
  | stepLimit
deriving Repr, DecidableEq

/-- src/paw.py lines 137-196, one `for` iteration at a time (`fuel` is
the remaining range, `steps` counts model turns taken so far).  Returns
the final conversation, state, printed lines, outcome, and total model
turns. -/
def runAux (env : LoopEnv W) :
    Nat → List MessageM → PendingState × W → List String → Nat →
      List MessageM × (PendingState × W) × List String × RunOutcome × Nat
  | 0, msgs, s, printed, steps =>
    (msgs, s, printed ++ ["\n(max steps reached)"], RunOutcome.stepLimit, steps)
  | fuel + 1, msgs, s, printed, steps =>
    let message := env.model msgs
    let msgs1 := msgs ++ [message]
    let texts := textsOf message
    let tcs := toolCallsOf message
    let printed1 :=
      if texts.isEmpty then printed else printed ++ ["\n" ++ String.join texts]
    if tcs.isEmpty then (msgs1, s, printed1, RunOutcome.natural, steps + 1)
    else
      let r := resolveCalls env tcs s
      let msgs2 := msgs1 ++ [toolMessage r.1]
      let fa := flushAttachments msgs2 r.2.2
      runAux env fuel fa.1 fa.2 (printed1 ++ r.2.1) (steps + 1)

/-- src/paw.py lines 134-196: the whole loop, `MAX_STEPS` iterations of
fuel, starting from the seeded conversation. -/
def run (env : LoopEnv W) (chat : List MessageM) (s : PendingState × W) :
    List MessageM × (PendingState × W) × List String × RunOutcome × Nat :=
  runAux env MAX_STEPS chat s [] 0

/-! ### Claim C5: the denial path -/

/-- C5: when confirmation denies a call, the loop's resolver produces
for it exactly the `ToolResponse` whose error is the literal
"User denied this action.", prints "  DENIED", and threads the state
past the call untouched — `exec` (and hence the tool's side effect) is
never applied to the denied call. -/
theorem resolveCalls_denied (env : LoopEnv W) (tc : ToolCall) (rest : List ToolCall)
    (s : PendingState × W) (h : env.confirm tc = false) :
    resolveCalls env (tc :: rest) s =
      (⟨tc, none, some "User denied this action."⟩ :: (resolveCalls env rest s).1,
       "  DENIED" :: (resolveCalls env rest s).2.1,
       (resolveCalls env rest s).2.2) := by
  simp [resolveCalls, h]

/-- A deny-everything environment over a counter world: `exec` would
bump the counter if it ever ran. -/
def denyEnv : LoopEnv Nat :=
  { model := fun _ => ⟨RoleM.assistant, []⟩,
    confirm := fun _ => false,
    exec := fun tc s => (⟨tc, some "ran", none⟩, (s.1, s.2 + 1)) }

/-- The denied call of the witness. -/
def denyCall : ToolCall := ⟨"bash", [("command", "rm -rf /tmp/x")]⟩

/-- Witness for `resolveCalls_denied`: the counter world stays at 0. -/
theorem resolveCalls_denied_witness :
    denyEnv.confirm denyCall = false ∧
    resolveCalls denyEnv [denyCall] (⟨[], []⟩, 0) =
      (⟨denyCall, none, some "User denied this action."⟩ ::
         (resolveCalls denyEnv [] (⟨[], []⟩, 0)).1,
       "  DENIED" :: (resolveCalls denyEnv [] (⟨[], []⟩, 0)).2.1,
       (resolveCalls denyEnv [] (⟨[], []⟩, 0)).2.2) :=
  ⟨rfl, resolveCalls_denied denyEnv denyCall [] (⟨[], []⟩, 0) rfl⟩

/-! ### Claim C6: step-bounded termination -/

theorem runAux_stepLimit (env : LoopEnv W)
    (h : ∀ msgs, toolCallsOf (env.model msgs) ≠ []) :
    ∀ fuel msgs s printed steps,
      (runAux env fuel msgs s printed steps).2.2.2.1 = RunOutcome.stepLimit ∧
      (runAux env fuel msgs s printed steps).2.2.2.2 = steps + fuel ∧
      "\n(max steps reached)" ∈ (runAux env fuel msgs s printed steps).2.2.1 := by
  intro fuel
  induction fuel with
  | zero =>
    intro msgs s printed steps
    refine ⟨rfl, rfl, ?_⟩
    simp [runAux]
  | succ fuel ih =>
    intro msgs s printed steps
    have hE : (toolCallsOf (env.model msgs)).isEmpty = false := by
      cases hcc : toolCallsOf (env.model msgs) with
      | nil => exact absurd hcc (h msgs)
      | cons _ _ => rfl
    simp only [runAux, hE, Bool.false_eq_true, if_false]
    refine ⟨(ih _ _ _ _).1, ?_, (ih _ _ _ _).2.2⟩
    rw [(ih _ _ _ _).2.1]
    omega

/-- C6: the loop is a total function of its fuel, so it never runs
forever; when the model emits at least one tool call on every turn, it
ends after exactly `MAX_STEPS` (= 20) model turns with the distinct
step-limit outcome and the "(max steps reached)" notice; and whenever a
turn carries no tool-call request (with fuel remaining), the loop ends
right there with the natural outcome, having taken exactly that one
further model turn. -/
theorem run_terminates (env : LoopEnv W) (chat : List MessageM) (s : PendingState × W) :
    ((∀ msgs, toolCallsOf (env.model msgs) ≠ []) →
        (run env chat s).2.2.2.1 = RunOutcome.stepLimit ∧
        (run env chat s).2.2.2.2 = MAX_STEPS ∧ MAX_STEPS = 20 ∧
        "\n(max steps reached)" ∈ (run env chat s).2.2.1) ∧
    (∀ fuel msgs s0 printed steps, toolCallsOf (env.model msgs) = [] →
        (runAux env (fuel + 1) msgs s0 printed steps).2.2.2.1 = RunOutcome.natural ∧
        (runAux env (fuel + 1) msgs s0 printed steps).2.2.2.2 = steps + 1) := by
  constructor
  · intro h
    obtain ⟨h1, h2, h3⟩ := runAux_stepLimit env h MAX_STEPS chat s [] 0
    refine ⟨h1, ?_, rfl, h3⟩
    simp only [run] at h2 ⊢
    omega
  · intro fuel msgs s0 printed steps hempty
    have hE : (toolCallsOf (env.model msgs)).isEmpty = true := by
      simp [hempty]
    simp [runAux, hE]

/-- A model that always requests one `bash` call. -/
def envBusy : LoopEnv Nat :=
  { model := fun _ => ⟨RoleM.assistant, [PartM.toolCall ⟨"bash", [("command", "true")]⟩]⟩,
    confirm := fun _ => true,
    exec := fun tc s => (⟨tc, some "(no output)", none⟩, s) }

/-- A model that only ever answers with text. -/
def envQuiet : LoopEnv Nat :=
  { model := fun _ => ⟨RoleM.assistant, [PartM.text "done"]⟩,
    confirm := fun _ => true,
    exec := fun tc s => (⟨tc, some "(no output)", none⟩, s) }

/-- Witness for `run_terminates` on both environments. -/
theorem run_terminates_witness :
    ((run envBusy [] (⟨[], []⟩, 0)).2.2.2.1 = RunOutcome.stepLimit ∧
     (run envBusy [] (⟨[], []⟩, 0)).2.2.2.2 = MAX_STEPS ∧ MAX_STEPS = 20 ∧
     "\n(max steps reached)" ∈ (run envBusy [] (⟨[], []⟩, 0)).2.2.1) ∧
    ((runAux envQuiet (19 + 1) [] (⟨[], []⟩, 0) [] 0).2.2.2.1 = RunOutcome.natural ∧
     (runAux envQuiet (19 + 1) [] (⟨[], []⟩, 0) [] 0).2.2.2.2 = 0 + 1) :=
  ⟨(run_terminates envBusy [] (⟨[], []⟩, 0)).1
     (fun msgs => by simp [envBusy, toolCallsOf]),
   (run_terminates envQuiet [] (⟨[], []⟩, 0)).2 19 [] (⟨[], []⟩, 0) [] 0
     (by simp [envQuiet, toolCallsOf])⟩

/-! ### Memory (src/paw.py lines 199-210) -/

/-- Python `text.split("---")` specialised to the literal separator used
by `load_recent_memory`: leftmost-first, non-overlapping. -/
def splitDashes : List Char → List (List Char)
  | [] => [[]]
  | '-' :: '-' :: '-' :: rest => [] :: splitDashes rest
  | c :: rest =>
    match splitDashes rest with
    | [] => [[c]]
    | piece :: pieces => (c :: piece) :: pieces

/-- src/paw.py line 208: the stripped, nonempty entries of the log text
(`[e.strip() for e in text.split("---") if e.strip()]` applied to the
stripped raw text). -/
def entriesOf (raw : List Char) : List (List Char) :=
  ((splitDashes (pyStrip raw)).map pyStrip).filter fun e => !e.isEmpty

/-- src/paw.py lines 202-210: `load_recent_memory`.  `none` models an
absent `MEMORY.md`; otherwise `raw` is the file's text. -/
def load_recent_memory (file : Option (List Char)) (n : Nat) : List Char :=
  match file with
  | none => []
  | some raw =>
    if pyStrip raw = [] then []
    else
      "---\n".toList ++
        List.intercalate "\n---\n".toList (lastN n (entriesOf raw)) ++
        "\n---".toList

/-! ### Claim C7: the trailing three entries, in order -/

/-- C7: on a log whose entry list `es` has at least 3 entries, loading
recent memory with `n = 3` renders exactly `lastN 3 es` — precisely 3
entries, a suffix of `es` in their original order — between the
delimiters, and nothing else. -/
theorem load_recent_memory_last_three (raw : List Char) (es : List (List Char))
    (hes : entriesOf raw = es) (hlen : 3 ≤ es.length) :
    load_recent_memory (some raw) 3 =
      "---\n".toList ++ List.intercalate "\n---\n".toList (lastN 3 es) ++ "\n---".toList ∧
    (lastN 3 es).length = 3 ∧
    es = es.take (es.length - 3) ++ lastN 3 es := by
  have hne : pyStrip raw ≠ [] := by
    intro h0
    rw [entriesOf, h0] at hes
    simp [splitDashes, pyStrip] at hes
    rw [hes] at hlen
    simp at hlen
  refine ⟨?_, ?_, ?_⟩
  · simp [load_recent_memory, hne, hes]
  · simp only [lastN, List.length_drop]
    omega
  · simp only [lastN]
    exact (List.take_append_drop (es.length - 3) es).symm

/-- A concrete five-entry memory log. -/
def demoLog : List Char :=
  "---\nE1\n---\nE2\n---\nE3\n---\nE4\n---\nE5\n---".toList

/-- The five entries of `demoLog`. -/
def demoEntries : List (List Char) :=
  ["E1".toList, "E2".toList, "E3".toList, "E4".toList, "E5".toList]

/-- Witness for `load_recent_memory_last_three` on the five-entry log. -/
theorem load_recent_memory_last_three_witness :
    load_recent_memory (some demoLog) 3 =
      "---\n".toList ++ List.intercalate "\n---\n".toList (lastN 3 demoEntries) ++
        "\n---".toList ∧
    (lastN 3 demoEntries).length = 3 ∧
    demoEntries = demoEntries.take (demoEntries.length - 3) ++ lastN 3 demoEntries :=
  load_recent_memory_last_three demoLog demoEntries (by decide) (by decide)

/-! ### Claim C10: missing or blank log -/

/-- C10: with no `MEMORY.md`, or with one containing only whitespace,
`load_recent_memory` returns the empty string — no failure and no
partial delimiter block. -/
theorem load_recent_memory_blank (raw : List Char) :
    load_recent_memory none 3 = [] ∧
    ((∀ c ∈ raw, isPySpace c = true) → load_recent_memory (some raw) 3 = []) := by
  refine ⟨rfl, ?_⟩
  intro h
  have h1 : raw.dropWhile isPySpace = [] := List.dropWhile_eq_nil_iff.mpr h
  have hs : pyStrip raw = [] := by simp [pyStrip, h1]
  simp [load_recent_memory, hs]

/-- Witness for `load_recent_memory_blank` on a whitespace-only log. -/
theorem load_recent_memory_blank_witness :
    load_recent_memory none 3 = [] ∧
    load_recent_memory (some " \n\t ".toList) 3 = [] :=
  ⟨(load_recent_memory_blank []).1,
   (load_recent_memory_blank " \n\t ".toList).2 (by decide)⟩

/-! ### Claim C9: memory-compaction failure is non-fatal
(src/paw.py lines 283-316) -/

/-- What `main` leaves behind: the conversation, the loop outcome, the
user-facing lines, and the process exit code. -/
structure SessionReport where
  chat : List MessageM
  outcome : RunOutcome
  printed : List String
  exitCode : Nat
deriving Repr, DecidableEq

/-- src/paw.py lines 310-316: after `run` completes, `save_memory` runs
under `try/except Exception as e`; a raised exception becomes the
`Except.error e` value here and turns into the printed warning, while an
`ok` save adds nothing.  Either way `main` falls through to a successful
exit (exit code 0).  `chat`, `outcome`, `printed` are the session's
results from before compaction. -/
def finish_session (chat : List MessageM) (outcome : RunOutcome)
    (printed : List String) (save : Except String Unit) : SessionReport :=
  { chat := chat
    outcome := outcome
    printed := printed ++
      (match save with
       | Except.ok _ => []
       | Except.error e => ["\n(failed to save memory: " ++ e ++ ")"])
    exitCode := 0 }

/-- C9: every memory-compaction failure is caught at the top level: the
session still exits successfully (exit code 0, identical to the
successful-save path), the conversation and loop outcome are untouched,
and the failure surfaces only as the single warning line. -/
theorem finish_session_compaction_nonfatal (chat : List MessageM)
    (outcome : RunOutcome) (printed : List String) (e : String) :
    (finish_session chat outcome printed (Except.error e)).exitCode = 0 ∧
    (finish_session chat outcome printed (Except.error e)).exitCode =
      (finish_session chat outcome printed (Except.ok ())).exitCode ∧
    (finish_session chat outcome printed (Except.error e)).chat =
      (finish_session chat outcome printed (Except.ok ())).chat ∧
    (finish_session chat outcome printed (Except.error e)).outcome =
      (finish_session chat outcome printed (Except.ok ())).outcome ∧
    (finish_session chat outcome printed (Except.error e)).printed =
      printed ++ ["\n(failed to save memory: " ++ e ++ ")"] :=
  ⟨rfl, rfl, rfl, rfl, rfl⟩
